import Mathlib

/-!
Shallow embedding of `aws/resource_aws_service_discovery_http_namespace.go`
(terraform-provider-aws): the Terraform resource lifecycle controller for an
AWS Cloud Map HTTP namespace.  The remote AWS API, the operation waiter and
the tag synchronizer are external collaborators, modelled as an oracle
record `Conn`; the Terraform `ResourceData` is modelled as an explicit state
structure with the fields of this resource's schema.  Each lifecycle
function returns the Go `error` (as `Except String Unit`) together with the
resulting `ResourceData` state.
-/

/-- An AWS error as classified by `isAWSErr`: an error code and a message.
A non-AWS error (e.g. a transport failure) is modelled by a code that is
not any AWS error code. -/
structure AwsErr where
  code : String
  message : String
deriving DecidableEq

/-- Rendering of an error by the `%w`/`%s` verbs of `fmt.Errorf`
(awserr.Error prints its code and message). -/
def AwsErr.errorString (e : AwsErr) : String :=
  e.code ++ ": " ++ e.message

/-- Go `strings.Contains`: the empty pattern is contained in everything,
and a nonempty pattern occurs iff `splitOn` produces at least two parts. -/
def strContains (s pattern : String) : Bool :=
  pattern == "" || (s.splitOn pattern).length ≥ 2

/-- `isAWSErr(err, code, message)` from the provider: the error carries the
given AWS error code and its message contains `message` (always called with
`message = ""` in this file, which every message contains). -/
def isAWSErr (err : AwsErr) (code message : String) : Bool :=
  err.code == code && strContains err.message message

/-- SDK constant `servicediscovery.ErrCodeNamespaceNotFound`. -/
def ErrCodeNamespaceNotFound : String := "NamespaceNotFound"

/-- SDK constant `servicediscovery.OperationTargetTypeNamespace`. -/
def OperationTargetTypeNamespace : String := "NAMESPACE"

/-- `aws.StringValue`: dereference a `*string`, `nil` becoming `""`. -/
def Aws.stringValue (s : Option String) : String :=
  s.getD ""

/-- A key-value tag mapping (`keyvaluetags.KeyValueTags`), as an
association list with distinct keys (a Go map is unordered with unique
keys). -/
def KeyValueTags : Type := List (String × String)
deriving DecidableEq

/-- Modelled from the spec: the `IgnoreAws` filter of the external
`keyvaluetags` package, which drops provider-managed tags — the keys
carrying the reserved AWS prefix — before tags are sent or stored. -/
def KeyValueTags.ignoreAws (t : KeyValueTags) : KeyValueTags :=
  List.filter (fun p => !(String.isPrefixOf "aws:" p.1)) t

/-- Modelled from the spec: the provider-wide ignore configuration is a
list of tag keys; the `IgnoreConfig` filter drops tags whose key is in the
list ("tags matching ignore rules are invisible to the local record"). -/
def KeyValueTags.ignoreConfig (cfg : List String) (t : KeyValueTags) : KeyValueTags :=
  List.filter (fun p => !(List.contains cfg p.1)) t

/-- Look up a key in a tag mapping. -/
def KeyValueTags.lookup (t : KeyValueTags) (k : String) : Option String :=
  List.lookup k t

/-- Go `reflect.DeepEqual` on two tag maps (as used by `d.HasChange`):
same keys, same values, order-insensitive. -/
def tagsMapEq (a b : KeyValueTags) : Bool :=
  List.all a (fun p => KeyValueTags.lookup b p.1 == some p.2) &&
  List.all b (fun p => KeyValueTags.lookup a p.1 == some p.2)

/-- `servicediscovery.CreateHttpNamespaceInput`. -/
structure CreateHttpNamespaceInput where
  name : String
  tags : KeyValueTags
  creatorRequestId : String
  description : Option String
deriving DecidableEq

/-- `servicediscovery.CreateHttpNamespaceOutput` (`OperationId *string`). -/
structure CreateHttpNamespaceOutput where
  operationId : Option String
deriving DecidableEq

/-- `servicediscovery.Namespace` as read by this file: `Arn`, `Name`,
`Description` are `*string` fields. -/
structure SdNamespace where
  arn : Option String
  name : Option String
  description : Option String
deriving DecidableEq

/-- `servicediscovery.GetNamespaceOutput`; the code dereferences
`resp.Namespace` unconditionally, so the namespace is present. -/
structure GetNamespaceOutput where
  nspace : SdNamespace
deriving DecidableEq

/-- `servicediscovery.Operation`: its `Targets` field maps a target type to
a `*string` target ID. -/
structure SdOperation where
  targets : List (String × Option String)
deriving DecidableEq

/-- `servicediscovery.GetOperationOutput` (`Operation` may be nil). -/
structure GetOperationOutput where
  operation : Option SdOperation
deriving DecidableEq

/-- `servicediscovery.DeleteNamespaceOutput` (`OperationId *string`). -/
structure DeleteNamespaceOutput where
  operationId : Option String
deriving DecidableEq

/-- The external collaborators as response oracles: the Service Discovery
client calls made by this file, the operation waiter
(`waiter.OperationSuccess`), the tag lister
(`keyvaluetags.ServicediscoveryListTags`), and the low-level tag-diff
application the tag synchronizer performs.  A `*Output` pointer that may be
nil is an `Option`. -/
structure Conn where
  createHttpNamespace : CreateHttpNamespaceInput → Except AwsErr (Option CreateHttpNamespaceOutput)
  getNamespace : String → Except AwsErr GetNamespaceOutput
  deleteNamespace : String → Except AwsErr (Option DeleteNamespaceOutput)
  operationSuccess : String → Except AwsErr (Option GetOperationOutput)
  servicediscoveryListTags : String → Except AwsErr KeyValueTags
  applyTagsDiff : String → List String → KeyValueTags → Except AwsErr Unit

/-- Modelled from the spec: `keyvaluetags.ServicediscoveryUpdateTags` (the
external tag synchronizer) computes the diff — removed keys, and
added/changed pairs — between the old and new tag sets and applies exactly
that diff against the resource ARN. -/
def removedTagKeys (o n : KeyValueTags) : List String :=
  List.map Prod.fst (List.filter (fun p => KeyValueTags.lookup n p.1 == none) o)

/-- Modelled from the spec: the added or changed pairs of the tag diff —
the pairs of the new tag set that the old set does not already carry. -/
def updatedTagPairs (o n : KeyValueTags) : KeyValueTags :=
  List.filter (fun p => !(KeyValueTags.lookup o p.1 == some p.2)) n

/-- Modelled from the spec: `keyvaluetags.ServicediscoveryUpdateTags`
applies the computed diff against the ARN through the remote tag API. -/
def servicediscoveryUpdateTags (conn : Conn) (arn : String) (o n : KeyValueTags) : Except AwsErr Unit :=
  conn.applyTagsDiff arn (removedTagKeys o n) (updatedTagPairs o n)

/-- The Terraform `ResourceData` for this resource: its identity and the
schema fields.  `oldTags` is the old value of the `tags` diff, consulted by
`d.HasChange`/`d.GetChange` in Update; `d.Get` returns the new value. -/
structure ResourceData where
  id : String
  name : String
  description : String
  arn : String
  tags : KeyValueTags
  oldTags : KeyValueTags
deriving DecidableEq

/-- `schema.ValueType` of the fields used by this resource. -/
inductive SchemaType where
  | typeString
  | typeMap
deriving DecidableEq

/-- One attribute of the declarative schema. -/
structure SchemaAttr where
  typ : SchemaType
  required : Bool := false
  optional : Bool := false
  computed : Bool := false
  forceNew : Bool := false
  hasValidateFunc : Bool := false
deriving DecidableEq

/-- Modelled from the spec: the shared `tagsSchema()` helper — `tags` is an
optional, mutable (not ForceNew) string map. -/
def tagsSchema : SchemaAttr :=
  { typ := SchemaType.typeMap, optional := true }

/-- The schema map of `resourceAwsServiceDiscoveryHttpNamespace`. -/
def resourceAwsServiceDiscoveryHttpNamespaceSchema : List (String × SchemaAttr) :=
  [ ("name", { typ := SchemaType.typeString, required := true, forceNew := true, hasValidateFunc := true })
  , ("description", { typ := SchemaType.typeString, optional := true, forceNew := true })
  , ("tags", tagsSchema)
  , ("arn", { typ := SchemaType.typeString, computed := true }) ]

/-- `resourceAwsServiceDiscoveryHttpNamespaceRead`: fetch the namespace by
the persisted ID; on the NamespaceNotFound code clear the identity and
succeed; otherwise copy name/description/arn into state, then list tags by
ARN, filter them and store them. (`d.Set` on a string field of this schema
cannot fail, so the tag-set error branch of the Go code is dead and the
store is modelled as always succeeding.) -/
def resourceAwsServiceDiscoveryHttpNamespaceRead (conn : Conn) (ignoreTagsConfig : List String)
    (d : ResourceData) : Except String Unit × ResourceData :=
  match conn.getNamespace d.id with
  | Except.error err =>
    if isAWSErr err ErrCodeNamespaceNotFound "" then
      (Except.ok (), { d with id := "" })
    else
      (Except.error ("error reading Service Discovery HTTP Namespace (" ++ d.id ++ "): " ++ err.errorString), d)
  | Except.ok resp =>
    match conn.servicediscoveryListTags (Aws.stringValue resp.nspace.arn) with
    | Except.error err =>
      (Except.error ("error listing tags for resource (" ++ Aws.stringValue resp.nspace.arn ++ "): " ++ err.errorString),
       { d with name := Aws.stringValue resp.nspace.name
              , description := Aws.stringValue resp.nspace.description
              , arn := Aws.stringValue resp.nspace.arn })
    | Except.ok tags =>
      (Except.ok (),
       { d with name := Aws.stringValue resp.nspace.name
              , description := Aws.stringValue resp.nspace.description
              , arn := Aws.stringValue resp.nspace.arn
              , tags := KeyValueTags.ignoreConfig ignoreTagsConfig (KeyValueTags.ignoreAws tags) })

/-- The create request built by Create: the name from state, the tags after
the AWS-managed filter, the client-generated idempotency token, and the
description only when `d.GetOk` reports it set (nonempty). -/
def mkCreateHttpNamespaceInput (uniqueId : String) (d : ResourceData) : CreateHttpNamespaceInput :=
  { name := d.name
  , tags := KeyValueTags.ignoreAws d.tags
  , creatorRequestId := uniqueId
  , description := if d.description == "" then none else some d.description }

/-- `resourceAwsServiceDiscoveryHttpNamespaceCreate`: issue the create
call, require an operation ID in the response, block on the waiter, require
the operation record and its namespace target, persist the target as the
identity, and finish with a full Read.  `uniqueId` is the value of
`resource.UniqueId()` for this invocation. -/
def resourceAwsServiceDiscoveryHttpNamespaceCreate (conn : Conn) (ignoreTagsConfig : List String)
    (uniqueId : String) (d : ResourceData) : Except String Unit × ResourceData :=
  match conn.createHttpNamespace (mkCreateHttpNamespaceInput uniqueId d) with
  | Except.error err =>
    (Except.error ("error creating Service Discovery HTTP Namespace (" ++ d.name ++ "): " ++ err.errorString), d)
  | Except.ok output =>
    match output with
    | none =>
      (Except.error ("error creating Service Discovery HTTP Namespace (" ++ d.name ++ "): creation response missing Operation ID"), d)
    | some o =>
      match o.operationId with
      | none =>
        (Except.error ("error creating Service Discovery HTTP Namespace (" ++ d.name ++ "): creation response missing Operation ID"), d)
      | some opId =>
        match conn.operationSuccess opId with
        | Except.error err =>
          (Except.error ("error waiting for Service Discovery HTTP Namespace (" ++ d.name ++ ") creation: " ++ err.errorString), d)
        | Except.ok operationOutput =>
          match operationOutput with
          | none =>
            (Except.error ("error creating Service Discovery HTTP Namespace (" ++ d.name ++ "): operation response missing Operation information"), d)
          | some oo =>
            match oo.operation with
            | none =>
              (Except.error ("error creating Service Discovery HTTP Namespace (" ++ d.name ++ "): operation response missing Operation information"), d)
            | some op =>
              match List.lookup OperationTargetTypeNamespace op.targets with
              | none =>
                (Except.error ("error creating Service Discovery HTTP Namespace (" ++ d.name ++ "): operation response missing Namespace ID"), d)
              | some namespaceID =>
                resourceAwsServiceDiscoveryHttpNamespaceRead conn ignoreTagsConfig
                  { d with id := Aws.stringValue namespaceID }

/-- `resourceAwsServiceDiscoveryHttpNamespaceUpdate`: when the tag diff is
nonempty, hand old and new tag sets to the tag synchronizer against the
ARN from state; always conclude with a Read. -/
def resourceAwsServiceDiscoveryHttpNamespaceUpdate (conn : Conn) (ignoreTagsConfig : List String)
    (d : ResourceData) : Except String Unit × ResourceData :=
  if tagsMapEq d.oldTags d.tags then
    resourceAwsServiceDiscoveryHttpNamespaceRead conn ignoreTagsConfig d
  else
    match servicediscoveryUpdateTags conn d.arn d.oldTags d.tags with
    | Except.error err =>
      (Except.error ("error updating Service Discovery HTTP Namespace (" ++ d.id ++ ") tags: " ++ err.errorString), d)
    | Except.ok _ =>
      resourceAwsServiceDiscoveryHttpNamespaceRead conn ignoreTagsConfig d

/-- `resourceAwsServiceDiscoveryHttpNamespaceDelete`: issue the delete
call; the NamespaceNotFound code is success; any other error is fatal; when
the response carries an operation ID, block on the waiter before
returning. -/
def resourceAwsServiceDiscoveryHttpNamespaceDelete (conn : Conn)
    (d : ResourceData) : Except String Unit × ResourceData :=
  match conn.deleteNamespace d.id with
  | Except.error err =>
    if isAWSErr err ErrCodeNamespaceNotFound "" then
      (Except.ok (), d)
    else
      (Except.error ("error deleting Service Discovery HTTP Namespace (" ++ d.id ++ "): " ++ err.errorString), d)
  | Except.ok output =>
    match output with
    | none => (Except.ok (), d)
    | some o =>
      match o.operationId with
      | none => (Except.ok (), d)
      | some opId =>
        match conn.operationSuccess opId with
        | Except.error err =>
          (Except.error ("error waiting for Service Discovery HTTP Namespace (" ++ d.id ++ ") deletion: " ++ err.errorString), d)
        | Except.ok _ => (Except.ok (), d)

/-! Concrete fixtures used by the witness theorems. -/

/-- A NamespaceNotFound AWS error. -/
def errNotFound : AwsErr :=
  { code := ErrCodeNamespaceNotFound, message := "namespace not found" }

/-- A generic remote failure that is not the not-found code. -/
def errBoom : AwsErr :=
  { code := "InternalFailure", message := "boom" }

/-- A sample pre-populated resource state. -/
def dEx : ResourceData :=
  { id := "ns-123", name := "my-ns", description := "d"
  , arn := "arn:aws:servicediscovery:us-east-1:ns-123"
  , tags := [("env", "prod")], oldTags := [("env", "prod")] }

/-- A sample resource state mid-Update: the tag diff is nonempty and the
new tag set is the mapping being pushed via Update. -/
def dUpd : ResourceData :=
  { dEx with oldTags := [("env", "stage")] }

/-- A sample remote namespace record. -/
def respEx : GetNamespaceOutput :=
  { nspace := { arn := some "arn:aws:servicediscovery:us-east-1:ns-123"
              , name := some "my-ns", description := some "d" } }

/-- An oracle whose namespace fetch and delete report not-found. -/
def connNF : Conn :=
  { createHttpNamespace := fun _ => Except.error errBoom
  , getNamespace := fun _ => Except.error errNotFound
  , deleteNamespace := fun _ => Except.error errNotFound
  , operationSuccess := fun _ => Except.error errBoom
  , servicediscoveryListTags := fun _ => Except.ok []
  , applyTagsDiff := fun _ _ _ => Except.ok () }

/-- An oracle for the happy path: create yields an operation, the waiter
succeeds with a namespace target, reads succeed and list the created tags. -/
def connHappy : Conn :=
  { createHttpNamespace := fun _ => Except.ok (some { operationId := some "op-1" })
  , getNamespace := fun _ => Except.ok respEx
  , deleteNamespace := fun _ => Except.ok (some { operationId := some "op-2" })
  , operationSuccess := fun _ =>
      Except.ok (some { operation := some { targets := [(OperationTargetTypeNamespace, some "ns-123")] } })
  , servicediscoveryListTags := fun _ => Except.ok [("env", "prod")]
  , applyTagsDiff := fun _ _ _ => Except.ok () }

/-- An oracle whose namespace fetch succeeds but whose tag listing fails. -/
def connListFail : Conn :=
  { connHappy with servicediscoveryListTags := fun _ => Except.error errBoom }

/-- An oracle whose waiter reports the asynchronous operation failed. -/
def connWaiterFail : Conn :=
  { connHappy with operationSuccess := fun _ => Except.error errBoom }

/-- An oracle whose create response carries no operation ID. -/
def connNoOpId : Conn :=
  { connHappy with createHttpNamespace := fun _ => Except.ok (some { operationId := none }) }

/-- A completed operation record whose target map lacks the namespace
target type. -/
def opOutNoTarget : Option GetOperationOutput :=
  some { operation := some { targets := [("SERVICE", some "srv-1")] } }

/-- An oracle whose waiter succeeds with an operation lacking the
namespace target. -/
def connNoTarget : Conn :=
  { connHappy with operationSuccess := fun _ => Except.ok opOutNoTarget }

/-! Theorems settling the claims. -/

/-- C1: for every ID, when Read's namespace fetch fails with the remote
API's NamespaceNotFound error, Read clears the local identity (tombstone)
and returns success; the not-found is not surfaced as an error. -/
theorem claim_C1 (conn : Conn) (cfg : List String) (d : ResourceData) (e : AwsErr)
    (hfetch : conn.getNamespace d.id = Except.error e)
    (hnf : isAWSErr e ErrCodeNamespaceNotFound "" = true) :
    resourceAwsServiceDiscoveryHttpNamespaceRead conn cfg d = (Except.ok (), { d with id := "" }) := by
  unfold resourceAwsServiceDiscoveryHttpNamespaceRead
  rw [hfetch]
  simp [hnf]

/-- Witness for C1 at a concrete oracle and state. -/
theorem claim_C1_witness :
    resourceAwsServiceDiscoveryHttpNamespaceRead connNF [] dEx = (Except.ok (), { dEx with id := "" }) :=
  claim_C1 connNF [] dEx errNotFound rfl (by decide)

/-- C2: Delete is idempotent with respect to absence: when the remote
delete call returns the NamespaceNotFound error, Delete returns success
with the state untouched, so a second Delete of an already-deleted ID never
errors. -/
theorem claim_C2 (conn : Conn) (d : ResourceData) (e : AwsErr)
    (hdel : conn.deleteNamespace d.id = Except.error e)
    (hnf : isAWSErr e ErrCodeNamespaceNotFound "" = true) :
    resourceAwsServiceDiscoveryHttpNamespaceDelete conn d = (Except.ok (), d) := by
  unfold resourceAwsServiceDiscoveryHttpNamespaceDelete
  rw [hdel]
  simp [hnf]

/-- Witness for C2 at a concrete oracle and state. -/
theorem claim_C2_witness :
    resourceAwsServiceDiscoveryHttpNamespaceDelete connNF dEx = (Except.ok (), dEx) :=
  claim_C2 connNF dEx errNotFound rfl (by decide)

/-- C10: Read is not atomic on error: when the namespace fetch succeeds
but the tag listing fails, Read returns an error while name, description
and arn have already been overwritten with the fetched values, and id and
tags alone keep their previous values. -/
theorem claim_C10 (conn : Conn) (cfg : List String) (d : ResourceData)
    (resp : GetNamespaceOutput) (e : AwsErr)
    (hget : conn.getNamespace d.id = Except.ok resp)
    (hls : conn.servicediscoveryListTags (Aws.stringValue resp.nspace.arn) = Except.error e) :
    resourceAwsServiceDiscoveryHttpNamespaceRead conn cfg d =
      (Except.error ("error listing tags for resource (" ++ Aws.stringValue resp.nspace.arn ++ "): " ++ e.errorString),
       { d with name := Aws.stringValue resp.nspace.name
              , description := Aws.stringValue resp.nspace.description
              , arn := Aws.stringValue resp.nspace.arn }) := by
  unfold resourceAwsServiceDiscoveryHttpNamespaceRead
  rw [hget]
  dsimp only
  rw [hls]

/-- Witness for C10 at a concrete oracle and state. -/
theorem claim_C10_witness :
    resourceAwsServiceDiscoveryHttpNamespaceRead connListFail [] dEx =
      (Except.error ("error listing tags for resource (" ++ Aws.stringValue respEx.nspace.arn ++ "): " ++ errBoom.errorString),
       { dEx with name := Aws.stringValue respEx.nspace.name
                , description := Aws.stringValue respEx.nspace.description
                , arn := Aws.stringValue respEx.nspace.arn }) :=
  claim_C10 connListFail [] dEx respEx errBoom rfl rfl

/-- Helper: Read leaves the identity untouched unless the namespace fetch
fails with the NamespaceNotFound code. -/
theorem read_id_preserved (conn : Conn) (cfg : List String) (d : ResourceData)
    (h : ¬ ∃ e, conn.getNamespace d.id = Except.error e ∧ isAWSErr e ErrCodeNamespaceNotFound "" = true) :
    (resourceAwsServiceDiscoveryHttpNamespaceRead conn cfg d).2.id = d.id := by
  unfold resourceAwsServiceDiscoveryHttpNamespaceRead
  cases hg : conn.getNamespace d.id with
  | error e =>
    have hnf : isAWSErr e ErrCodeNamespaceNotFound "" = false := by
      cases hb : isAWSErr e ErrCodeNamespaceNotFound "" with
      | true => exact absurd ⟨e, hg, hb⟩ h
      | false => rfl
    simp [hnf]
  | ok resp =>
    cases hl : conn.servicediscoveryListTags (Aws.stringValue resp.nspace.arn) with
    | error e => simp [hl]
    | ok tags => simp [hl]

/-- C3: when the initial create call succeeds with an operation ID but the
waiter reports the asynchronous operation failed or timed out (an error),
Create returns an error and the state — in particular the identity — is
left exactly as it was (nothing is persisted). -/
theorem claim_C3 (conn : Conn) (cfg : List String) (uid : String) (d : ResourceData)
    (out : CreateHttpNamespaceOutput) (opId : String) (e : AwsErr)
    (hc : conn.createHttpNamespace (mkCreateHttpNamespaceInput uid d) = Except.ok (some out))
    (hop : out.operationId = some opId)
    (hw : conn.operationSuccess opId = Except.error e) :
    resourceAwsServiceDiscoveryHttpNamespaceCreate conn cfg uid d =
      (Except.error ("error waiting for Service Discovery HTTP Namespace (" ++ d.name ++ ") creation: " ++ e.errorString), d) := by
  unfold resourceAwsServiceDiscoveryHttpNamespaceCreate
  rw [hc]
  dsimp only
  rw [hop]
  dsimp only
  rw [hw]

/-- Witness for C3 at a concrete oracle and state. -/
theorem claim_C3_witness :
    resourceAwsServiceDiscoveryHttpNamespaceCreate connWaiterFail [] "u-1" dEx =
      (Except.error ("error waiting for Service Discovery HTTP Namespace (" ++ dEx.name ++ ") creation: " ++ errBoom.errorString), dEx) :=
  claim_C3 connWaiterFail [] "u-1" dEx { operationId := some "op-1" } "op-1" errBoom rfl rfl rfl

/-- C4: when the remote create call succeeds but the response is nil or
carries no operation ID, Create fails with the malformed-response error,
whose text mentions the resource name, the state is untouched, and no
later collaborator (waiter, fetch, tag listing) is ever consulted. -/
theorem claim_C4 (conn : Conn) (cfg : List String) (uid : String) (d : ResourceData)
    (h : conn.createHttpNamespace (mkCreateHttpNamespaceInput uid d) = Except.ok none ∨
         ∃ out, conn.createHttpNamespace (mkCreateHttpNamespaceInput uid d) = Except.ok (some out) ∧
           out.operationId = none) :
    resourceAwsServiceDiscoveryHttpNamespaceCreate conn cfg uid d =
      (Except.error ("error creating Service Discovery HTTP Namespace (" ++ d.name ++ "): creation response missing Operation ID"), d) ∧
    (∃ pre post, ("error creating Service Discovery HTTP Namespace (" ++ d.name ++ "): creation response missing Operation ID") = pre ++ d.name ++ post) ∧
    (∀ w g ls, resourceAwsServiceDiscoveryHttpNamespaceCreate
        { conn with operationSuccess := w, getNamespace := g, servicediscoveryListTags := ls } cfg uid d =
      resourceAwsServiceDiscoveryHttpNamespaceCreate conn cfg uid d) := by
  obtain ⟨c1, c2, c3, c4, c5, c6⟩ := conn
  refine ⟨?_, ?_, ?_⟩
  · rcases h with h | ⟨out, h, hop⟩
    · unfold resourceAwsServiceDiscoveryHttpNamespaceCreate
      dsimp only at h ⊢
      rw [h]
    · unfold resourceAwsServiceDiscoveryHttpNamespaceCreate
      dsimp only at h ⊢
      rw [h]
      dsimp only
      rw [hop]
  · exact ⟨"error creating Service Discovery HTTP Namespace (", "): creation response missing Operation ID", rfl⟩
  · intro w g ls
    rcases h with h | ⟨out, h, hop⟩
    · unfold resourceAwsServiceDiscoveryHttpNamespaceCreate
      dsimp only at h ⊢
      rw [h]
    · unfold resourceAwsServiceDiscoveryHttpNamespaceCreate
      dsimp only at h ⊢
      rw [h]
      dsimp only
      rw [hop]

/-- Witness for C4 at a concrete oracle and state. -/
theorem claim_C4_witness :
    resourceAwsServiceDiscoveryHttpNamespaceCreate connNoOpId [] "u-1" dEx =
      (Except.error ("error creating Service Discovery HTTP Namespace (" ++ dEx.name ++ "): creation response missing Operation ID"), dEx) :=
  (claim_C4 connNoOpId [] "u-1" dEx (Or.inr ⟨{ operationId := none }, rfl, rfl⟩)).1

/-- C5: when the waiter reports success with an operation record, Create
fails (state untouched) when the target map lacks the "NAMESPACE" target
type; otherwise it persists exactly the ID found there and finishes with a
Read of that state, so — whenever that Read does not itself tombstone —
the resulting identity is exactly the reported namespace target. -/
theorem claim_C5 (conn : Conn) (cfg : List String) (uid : String) (d : ResourceData)
    (out : CreateHttpNamespaceOutput) (opId : String) (oo : GetOperationOutput) (op : SdOperation)
    (hc : conn.createHttpNamespace (mkCreateHttpNamespaceInput uid d) = Except.ok (some out))
    (hop : out.operationId = some opId)
    (hw : conn.operationSuccess opId = Except.ok (some oo))
    (hoo : oo.operation = some op) :
    (List.lookup OperationTargetTypeNamespace op.targets = none →
       resourceAwsServiceDiscoveryHttpNamespaceCreate conn cfg uid d =
         (Except.error ("error creating Service Discovery HTTP Namespace (" ++ d.name ++ "): operation response missing Namespace ID"), d)) ∧
    (∀ v, List.lookup OperationTargetTypeNamespace op.targets = some v →
       resourceAwsServiceDiscoveryHttpNamespaceCreate conn cfg uid d =
         resourceAwsServiceDiscoveryHttpNamespaceRead conn cfg { d with id := Aws.stringValue v } ∧
       (¬ (∃ e, conn.getNamespace (Aws.stringValue v) = Except.error e ∧ isAWSErr e ErrCodeNamespaceNotFound "" = true) →
          (resourceAwsServiceDiscoveryHttpNamespaceCreate conn cfg uid d).2.id = Aws.stringValue v)) := by
  constructor
  · intro htgt
    unfold resourceAwsServiceDiscoveryHttpNamespaceCreate
    rw [hc]
    dsimp only
    rw [hop]
    dsimp only
    rw [hw]
    dsimp only
    rw [hoo]
    dsimp only
    rw [htgt]
  · intro v htgt
    have hmain : resourceAwsServiceDiscoveryHttpNamespaceCreate conn cfg uid d =
        resourceAwsServiceDiscoveryHttpNamespaceRead conn cfg { d with id := Aws.stringValue v } := by
      unfold resourceAwsServiceDiscoveryHttpNamespaceCreate
      rw [hc]
      dsimp only
      rw [hop]
      dsimp only
      rw [hw]
      dsimp only
      rw [hoo]
      dsimp only
      rw [htgt]
    refine ⟨hmain, fun hnf => ?_⟩
    rw [hmain]
    exact read_id_preserved conn cfg { d with id := Aws.stringValue v } hnf

/-- Witness for C5 at a concrete oracle and state: the persisted identity
is the namespace target reported by the completed operation. -/
theorem claim_C5_witness :
    (resourceAwsServiceDiscoveryHttpNamespaceCreate connHappy [] "u-1" dEx).2.id = "ns-123" :=
  ((claim_C5 connHappy [] "u-1" dEx { operationId := some "op-1" } "op-1"
      { operation := some { targets := [(OperationTargetTypeNamespace, some "ns-123")] } }
      { targets := [(OperationTargetTypeNamespace, some "ns-123")] }
      rfl rfl rfl rfl).2 (some "ns-123") rfl).2
    (fun h => by
      obtain ⟨e, he, _⟩ := h
      exact Except.noConfusion he)

/-- C7: when the remote delete call succeeds, Delete blocks on the waiter
exactly when the response carries an operation ID — surfacing a waiter
error and otherwise succeeding — and when the response is nil or has no
operation ID it succeeds immediately without ever consulting the waiter. -/
theorem claim_C7 (conn : Conn) (d : ResourceData) (out : Option DeleteNamespaceOutput)
    (hdel : conn.deleteNamespace d.id = Except.ok out) :
    (∀ o opId, out = some o → o.operationId = some opId →
       ((∀ e, conn.operationSuccess opId = Except.error e →
           resourceAwsServiceDiscoveryHttpNamespaceDelete conn d =
             (Except.error ("error waiting for Service Discovery HTTP Namespace (" ++ d.id ++ ") deletion: " ++ e.errorString), d)) ∧
        (∀ u, conn.operationSuccess opId = Except.ok u →
           resourceAwsServiceDiscoveryHttpNamespaceDelete conn d = (Except.ok (), d)))) ∧
    ((out = none ∨ ∃ o, out = some o ∧ o.operationId = none) →
       ∀ w, resourceAwsServiceDiscoveryHttpNamespaceDelete { conn with operationSuccess := w } d =
         (Except.ok (), d)) := by
  obtain ⟨c1, c2, c3, c4, c5, c6⟩ := conn
  dsimp only at hdel
  constructor
  · rintro o opId rfl hop
    constructor
    · intro e hw
      unfold resourceAwsServiceDiscoveryHttpNamespaceDelete
      dsimp only
      rw [hdel]
      dsimp only
      rw [hop]
      dsimp only
      dsimp only at hw
      rw [hw]
    · intro u hw
      unfold resourceAwsServiceDiscoveryHttpNamespaceDelete
      dsimp only
      rw [hdel]
      dsimp only
      rw [hop]
      dsimp only
      dsimp only at hw
      rw [hw]
  · rintro (rfl | ⟨o, rfl, hop⟩) w
    · unfold resourceAwsServiceDiscoveryHttpNamespaceDelete
      dsimp only
      rw [hdel]
    · unfold resourceAwsServiceDiscoveryHttpNamespaceDelete
      dsimp only
      rw [hdel]
      dsimp only
      rw [hop]

/-- Witness for C7 at a concrete oracle and state: delete response carries
an operation ID and the waiter succeeds, so Delete returns success. -/
theorem claim_C7_witness :
    resourceAwsServiceDiscoveryHttpNamespaceDelete connHappy dEx = (Except.ok (), dEx) :=
  ((claim_C7 connHappy dEx (some { operationId := some "op-2" }) rfl).1
      { operationId := some "op-2" } "op-2" rfl rfl).2
    (some { operation := some { targets := [(OperationTargetTypeNamespace, some "ns-123")] } }) rfl

/-- Helper: the empty provider ignore-list filters nothing. -/
theorem ignoreConfig_nil (t : KeyValueTags) : KeyValueTags.ignoreConfig [] t = t := by
  unfold KeyValueTags.ignoreConfig
  simp [List.contains]

/-- Helper: the AWS-managed-key filter is idempotent. -/
theorem ignoreAws_idem (t : KeyValueTags) :
    KeyValueTags.ignoreAws (KeyValueTags.ignoreAws t) = KeyValueTags.ignoreAws t := by
  unfold KeyValueTags.ignoreAws
  rw [List.filter_filter]
  simp

/-- C6: when the old and new tag sets are map-equal, Update never consults
the tag-diff applier (its result is the same for every applier) and is
exactly a fresh Read; when they differ, Update's outcome is determined by
applying exactly the computed diff (removed keys, added/changed pairs)
against the state's ARN — error leaves the state untouched, success is
followed by exactly a fresh Read. -/
theorem claim_C6 (conn : Conn) (cfg : List String) (d : ResourceData) :
    (tagsMapEq d.oldTags d.tags = true →
       resourceAwsServiceDiscoveryHttpNamespaceUpdate conn cfg d =
         resourceAwsServiceDiscoveryHttpNamespaceRead conn cfg d ∧
       ∀ f, resourceAwsServiceDiscoveryHttpNamespaceUpdate { conn with applyTagsDiff := f } cfg d =
         resourceAwsServiceDiscoveryHttpNamespaceRead conn cfg d) ∧
    (tagsMapEq d.oldTags d.tags = false →
       (∀ u, conn.applyTagsDiff d.arn (removedTagKeys d.oldTags d.tags) (updatedTagPairs d.oldTags d.tags) = Except.ok u →
          resourceAwsServiceDiscoveryHttpNamespaceUpdate conn cfg d =
            resourceAwsServiceDiscoveryHttpNamespaceRead conn cfg d) ∧
       (∀ e, conn.applyTagsDiff d.arn (removedTagKeys d.oldTags d.tags) (updatedTagPairs d.oldTags d.tags) = Except.error e →
          resourceAwsServiceDiscoveryHttpNamespaceUpdate conn cfg d =
            (Except.error ("error updating Service Discovery HTTP Namespace (" ++ d.id ++ ") tags: " ++ e.errorString), d))) := by
  obtain ⟨c1, c2, c3, c4, c5, c6⟩ := conn
  constructor
  · intro hEq
    constructor
    · unfold resourceAwsServiceDiscoveryHttpNamespaceUpdate
      rw [hEq]
      simp
    · intro f
      unfold resourceAwsServiceDiscoveryHttpNamespaceUpdate
      rw [hEq]
      simp
      rfl
  · intro hNe
    constructor
    · intro u hu
      unfold resourceAwsServiceDiscoveryHttpNamespaceUpdate
      rw [hNe]
      dsimp only [servicediscoveryUpdateTags]
      dsimp only at hu
      simp only [hu]
      simp
    · intro e he
      unfold resourceAwsServiceDiscoveryHttpNamespaceUpdate
      rw [hNe]
      dsimp only [servicediscoveryUpdateTags]
      dsimp only at he
      simp only [he]
      simp

/-- Witness for C6 at a concrete oracle and state with unchanged tags. -/
theorem claim_C6_witness :
    resourceAwsServiceDiscoveryHttpNamespaceUpdate connHappy [] dEx =
      resourceAwsServiceDiscoveryHttpNamespaceRead connHappy [] dEx :=
  ((claim_C6 connHappy [] dEx).1 (by decide)).1

/-- Helper: under the empty provider ignore-list, a Read whose tag listing
echoes a mapping with no AWS-reserved keys stores that mapping unchanged
(Read's filters are the identity on it). -/
theorem read_stores_echoed_tags (conn : Conn) (d : ResourceData)
    (resp : GetNamespaceOutput) (sent : KeyValueTags)
    (hget : conn.getNamespace d.id = Except.ok resp)
    (hls : conn.servicediscoveryListTags (Aws.stringValue resp.nspace.arn) = Except.ok sent)
    (hinv : KeyValueTags.ignoreAws sent = sent) :
    resourceAwsServiceDiscoveryHttpNamespaceRead conn [] d =
      (Except.ok (),
       { d with name := Aws.stringValue resp.nspace.name
              , description := Aws.stringValue resp.nspace.description
              , arn := Aws.stringValue resp.nspace.arn
              , tags := sent }) := by
  unfold resourceAwsServiceDiscoveryHttpNamespaceRead
  rw [hget]
  dsimp only
  rw [hls]
  dsimp only
  rw [hinv, ignoreConfig_nil]

/-- C8: tag round-trip for both mutation paths. Create sends exactly the
AWS-filtered tag mapping in the create request, and under the empty
provider ignore-list a Read that lists back that sent mapping stores it
unchanged; likewise for the mapping set via Update — the new tag set
pushed through the synchronizer (which carries no AWS-reserved keys) —
when the diff applies successfully, the Read that Update concludes with
returns that mapping unchanged. -/
theorem claim_C8 (conn : Conn) (uid : String) (d : ResourceData)
    (resp : GetNamespaceOutput) (sent : KeyValueTags)
    (hget : conn.getNamespace d.id = Except.ok resp)
    (hls : conn.servicediscoveryListTags (Aws.stringValue resp.nspace.arn) = Except.ok sent) :
    (mkCreateHttpNamespaceInput uid d).tags = KeyValueTags.ignoreAws d.tags ∧
    (sent = (mkCreateHttpNamespaceInput uid d).tags →
       resourceAwsServiceDiscoveryHttpNamespaceRead conn [] d =
         (Except.ok (),
          { d with name := Aws.stringValue resp.nspace.name
                 , description := Aws.stringValue resp.nspace.description
                 , arn := Aws.stringValue resp.nspace.arn
                 , tags := sent })) ∧
    (sent = d.tags → KeyValueTags.ignoreAws sent = sent →
       tagsMapEq d.oldTags d.tags = false →
       ∀ u, conn.applyTagsDiff d.arn (removedTagKeys d.oldTags d.tags) (updatedTagPairs d.oldTags d.tags) = Except.ok u →
         resourceAwsServiceDiscoveryHttpNamespaceUpdate conn [] d =
           (Except.ok (),
            { d with name := Aws.stringValue resp.nspace.name
                   , description := Aws.stringValue resp.nspace.description
                   , arn := Aws.stringValue resp.nspace.arn
                   , tags := sent })) := by
  refine ⟨rfl, ?_, ?_⟩
  · intro hsent
    apply read_stores_echoed_tags conn d resp sent hget hls
    rw [hsent]
    show KeyValueTags.ignoreAws (KeyValueTags.ignoreAws d.tags) = KeyValueTags.ignoreAws d.tags
    exact ignoreAws_idem d.tags
  · intro _ hinv hNe u hu
    have hupd : resourceAwsServiceDiscoveryHttpNamespaceUpdate conn [] d =
        resourceAwsServiceDiscoveryHttpNamespaceRead conn [] d := by
      unfold resourceAwsServiceDiscoveryHttpNamespaceUpdate
      rw [hNe]
      dsimp only [servicediscoveryUpdateTags]
      simp only [hu]
      simp
    rw [hupd]
    exact read_stores_echoed_tags conn d resp sent hget hls hinv

/-- Witness for C8 at a concrete oracle: the same echoed mapping
round-trips through a Read after Create and through an Update whose tag
diff is nonempty and applies successfully. -/
theorem claim_C8_witness :
    resourceAwsServiceDiscoveryHttpNamespaceRead connHappy [] dUpd =
      (Except.ok (),
       { dUpd with name := Aws.stringValue respEx.nspace.name
                 , description := Aws.stringValue respEx.nspace.description
                 , arn := Aws.stringValue respEx.nspace.arn
                 , tags := [("env", "prod")] }) ∧
    resourceAwsServiceDiscoveryHttpNamespaceUpdate connHappy [] dUpd =
      (Except.ok (),
       { dUpd with name := Aws.stringValue respEx.nspace.name
                 , description := Aws.stringValue respEx.nspace.description
                 , arn := Aws.stringValue respEx.nspace.arn
                 , tags := [("env", "prod")] }) := by
  have h := claim_C8 connHappy "u-1" dUpd respEx [("env", "prod")] rfl rfl
  exact ⟨h.2.1 (by decide), h.2.2 rfl (by decide) (by decide) () rfl⟩

/-- C9: the schema marks both name and description ForceNew (any change
forces replacement, never in-place update), and Update has no branch that
writes either field: its result is either exactly a fresh Read's result or
a tag-branch failure that leaves the state untouched. -/
theorem claim_C9 :
    ((List.lookup "name" resourceAwsServiceDiscoveryHttpNamespaceSchema).map SchemaAttr.forceNew = some true) ∧
    ((List.lookup "description" resourceAwsServiceDiscoveryHttpNamespaceSchema).map SchemaAttr.forceNew = some true) ∧
    (∀ conn cfg d,
       resourceAwsServiceDiscoveryHttpNamespaceUpdate conn cfg d =
         resourceAwsServiceDiscoveryHttpNamespaceRead conn cfg d ∨
       ((resourceAwsServiceDiscoveryHttpNamespaceUpdate conn cfg d).2 = d ∧
        ∃ m, (resourceAwsServiceDiscoveryHttpNamespaceUpdate conn cfg d).1 = Except.error m)) := by
  refine ⟨rfl, rfl, ?_⟩
  intro conn cfg d
  by_cases h : tagsMapEq d.oldTags d.tags = true
  · left
    unfold resourceAwsServiceDiscoveryHttpNamespaceUpdate
    rw [h]
    simp
  · have h' : tagsMapEq d.oldTags d.tags = false := by
      cases hb : tagsMapEq d.oldTags d.tags with
      | true => exact absurd hb h
      | false => rfl
    cases hu : servicediscoveryUpdateTags conn d.arn d.oldTags d.tags with
    | error e =>
      right
      constructor
      · unfold resourceAwsServiceDiscoveryHttpNamespaceUpdate
        rw [h']
        simp only [hu]
        simp
      · refine ⟨"error updating Service Discovery HTTP Namespace (" ++ d.id ++ ") tags: " ++ e.errorString, ?_⟩
        unfold resourceAwsServiceDiscoveryHttpNamespaceUpdate
        rw [h']
        simp only [hu]
        simp
    | ok u =>
      left
      unfold resourceAwsServiceDiscoveryHttpNamespaceUpdate
      rw [h']
      simp only [hu]
      simp
